import Mathlib

/-!
Verification of the EVMatch vehicle/preference match-scoring and
recommendation-ranking component.

The definitions below are a shallow embedding of the JavaScript source:

* `backend/routes/quiz.js` — `calculateMatchScore`, `generateMatchReasons`
  and the sort/slice step of `getVehicleRecommendations`;
* the Vehicle model (Mongoose schema) — the `effectivePrice` virtual and
  `vehicleSchema.methods.calculateMatchScore`.

JavaScript numbers are modelled as exact rationals (`ℚ`); `Math.round` is
modelled as `⌊x + 1/2⌋` (round half toward positive infinity), which is its
behaviour on all non-NaN inputs.  Optional preference fields are `Option`s;
the JavaScript truthiness guard `if (preferences.rangeImportance)` is
modelled as "present and nonzero".  Environment-variable driven
configuration is modelled by explicit configuration structures whose
default values are the `||`-defaults in the source; feature flags that
default to off (external scoring API, ML recommendations, the
`ADDITIONAL_MATCH_REASONS` eval hook) are omitted, i.e. the embedding is
the default-environment behaviour of the code.
-/

set_option allowUnsafeReducibility true
attribute [semireducible] Rat.mul Rat.inv Rat.add Rat.sub Rat.ofScientific

/-- Source `vehicle.price.incentives` — federal/state/local incentive amounts. -/
structure Incentives where
  federal : ℚ
  state : ℚ
  localInc : ℚ
  deriving Repr, DecidableEq

/-- Source `vehicle.price` — MSRP and incentives. -/
structure Price where
  msrp : ℚ
  incentives : Incentives
  deriving Repr, DecidableEq

/-- Source `vehicle.specifications.range`. -/
structure RangeSpec where
  epa : ℚ
  deriving Repr, DecidableEq

/-- Source `vehicle.specifications.charging`. -/
structure ChargingSpec where
  dc_max_kw : ℚ
  deriving Repr, DecidableEq

/-- Source `vehicle.specifications`. -/
structure Specifications where
  range : RangeSpec
  charging : ChargingSpec
  deriving Repr, DecidableEq

/-- The fields of a vehicle document that the scoring component reads. -/
structure Vehicle where
  bodyType : String
  price : Price
  specifications : Specifications
  techScore : ℚ
  ecoScore : ℚ
  deriving Repr, DecidableEq

/-- Source `preferences.budget` — a min/max currency window. -/
structure Budget where
  min : ℚ
  max : ℚ
  deriving Repr, DecidableEq

/-- The user-preference record consumed by the quiz route's scorer.
`budget`, `rangeImportance` and `techImportance` are optional: the
source guards each with a JavaScript truthiness test. -/
structure Preferences where
  budget : Option Budget
  vehicleType : String
  rangeImportance : Option ℚ
  techImportance : Option ℚ
  chargingFeatures : List String
  deriving Repr, DecidableEq

/-- Source `quizConfig.scoring` in `routes/quiz.js`. -/
structure ScoringWeights where
  budgetWeight : ℚ
  typeWeight : ℚ
  rangeWeight : ℚ
  techWeight : ℚ
  ecoWeight : ℚ
  budgetFlexibility : ℚ
  rangeBaseline : ℚ
  overBudgetTolerance : ℚ

/-- Source `quizConfig.thresholds` in `routes/quiz.js`. -/
structure Thresholds where
  excellentRange : ℚ
  advancedTech : ℚ
  ecoFriendly : ℚ
  fastCharging : ℚ

/-- The parts of `quizConfig` the scorer and reason generator read:
scoring weights, reason thresholds, and the `similarTypes` mapping. -/
structure QuizConfig where
  scoring : ScoringWeights
  thresholds : Thresholds
  similarTypes : String → List String

/-- The `similarTypes` default mapping in `routes/quiz.js`
(`sedan ↔ hatchback`, `suv ↔ wagon`); any other key yields no entry,
modelling the `?.includes` optional chaining on a missing key. -/
def defaultSimilarTypes : String → List String
  | "sedan" => ["hatchback"]
  | "suv" => ["wagon"]
  | "hatchback" => ["sedan"]
  | "wagon" => ["suv"]
  | _ => []

/-- Source `quizConfig` with every environment variable unset: the `||`-default
weights 30/25/20/15/10, flexibility 1.2, baseline 300, tolerance 1.1,
thresholds 300/90/90/150. -/
def defaultQuizConfig : QuizConfig :=
  { scoring :=
      { budgetWeight := 30
        typeWeight := 25
        rangeWeight := 20
        techWeight := 15
        ecoWeight := 10
        budgetFlexibility := 12/10
        rangeBaseline := 300
        overBudgetTolerance := 11/10 }
    thresholds :=
      { excellentRange := 300
        advancedTech := 90
        ecoFriendly := 90
        fastCharging := 150 }
    similarTypes := defaultSimilarTypes }

/-- Kernel-computable floor of a rational (`⌊q⌋ = q.num / q.den` by
`Rat.floor_eq_div`); used instead of `Int.floor` so that concrete scores
evaluate by `decide`. -/
def ratFloor (q : ℚ) : ℤ := q.num / q.den

theorem ratFloor_eq (q : ℚ) : ratFloor q = ⌊q⌋ := Rat.floor_def.symm

/-- Kernel-computable minimum of two rationals. -/
def ratMin (a b : ℚ) : ℚ := if a ≤ b then a else b

theorem ratMin_eq (a b : ℚ) : ratMin a b = min a b := by
  rw [min_def, ratMin]

/-- Kernel-computable maximum of two rationals (`Math.max`). -/
def ratMax (a b : ℚ) : ℚ := if a ≤ b then b else a

theorem ratMax_eq (a b : ℚ) : ratMax a b = max a b := by
  rw [max_def, ratMax]

/-- Source `Math.round` on a non-NaN JavaScript number: `⌊x + 0.5⌋`. -/
def jsRound (q : ℚ) : ℤ := ratFloor (q + 1/2)

theorem jsRound_eq (q : ℚ) : jsRound q = ⌊q + 1/2⌋ := ratFloor_eq _

theorem jsRound_mono {a b : ℚ} (h : a ≤ b) : jsRound a ≤ jsRound b := by
  rw [jsRound_eq, jsRound_eq]
  exact Int.floor_le_floor (by linarith)

/-- The effective-price expression inside `calculateMatchScore`
(`routes/quiz.js` lines 290–291): MSRP minus the three incentives.
Note: the quiz route does NOT clamp this at zero. -/
def effectivePrice (v : Vehicle) : ℚ :=
  v.price.msrp -
    (v.price.incentives.federal + v.price.incentives.state + v.price.incentives.localInc)

/-- Budget sub-score of `calculateMatchScore` (`routes/quiz.js` 289–300). -/
def budgetScore (cfg : QuizConfig) (v : Vehicle) (p : Preferences) : ℚ :=
  match p.budget with
  | none => 0
  | some b =>
    let ep := effectivePrice v
    if b.min ≤ ep ∧ ep ≤ b.max then cfg.scoring.budgetWeight
    else if ep < b.min then cfg.scoring.budgetWeight * (67/100)
    else if ep ≤ b.max * cfg.scoring.overBudgetTolerance then cfg.scoring.budgetWeight * (1/2)
    else 0

/-- Body-type sub-score of `calculateMatchScore` (`routes/quiz.js` 302–307). -/
def typeScore (cfg : QuizConfig) (v : Vehicle) (p : Preferences) : ℚ :=
  if v.bodyType = p.vehicleType then cfg.scoring.typeWeight
  else if v.bodyType ∈ cfg.similarTypes p.vehicleType then cfg.scoring.typeWeight * (6/10)
  else 0

/-- Range sub-score of `calculateMatchScore` (`routes/quiz.js` 309–318).
The guard `if (preferences.rangeImportance)` is truthiness: present and
nonzero. -/
def rangeScore (cfg : QuizConfig) (v : Vehicle) (p : Preferences) : ℚ :=
  match p.rangeImportance with
  | none => 0
  | some ri =>
    if ri = 0 then 0
    else
      ratMin ((v.specifications.range.epa / cfg.scoring.rangeBaseline) * ri *
            (cfg.scoring.rangeWeight / 10))
        cfg.scoring.rangeWeight

/-- Tech sub-score of `calculateMatchScore` (`routes/quiz.js` 320–326). -/
def techContribution (cfg : QuizConfig) (v : Vehicle) (p : Preferences) : ℚ :=
  match p.techImportance with
  | none => 0
  | some ti =>
    if ti = 0 then 0
    else (v.techScore / 100) * ti * (cfg.scoring.techWeight / 10)

/-- Eco sub-score of `calculateMatchScore` (`routes/quiz.js` 329),
added unconditionally. -/
def ecoContribution (cfg : QuizConfig) (v : Vehicle) : ℚ :=
  (v.ecoScore / 100) * cfg.scoring.ecoWeight

/-- Source `calculateMatchScore` from `routes/quiz.js` (lines 285–332): the sum
of the five sub-scores, rounded with `Math.round`. -/
def calculateMatchScore (cfg : QuizConfig) (v : Vehicle) (p : Preferences) : ℤ :=
  jsRound (budgetScore cfg v p + typeScore cfg v p + rangeScore cfg v p +
    techContribution cfg v p + ecoContribution cfg v)

/-- Source `generateMatchReasons` from `routes/quiz.js` (lines 335–395), in the
default environment (`ADDITIONAL_MATCH_REASONS` unset, so the `eval` hook
at the end contributes nothing).  Each reason is pushed by an independent
`if`, in this fixed order. -/
def generateMatchReasons (cfg : QuizConfig) (v : Vehicle) (p : Preferences) : List String :=
  (match p.budget with
   | none => []
   | some b =>
     (if effectivePrice v ≤ b.max then ["Within budget"] else []) ++
     (if effectivePrice v < b.min then ["Great value"] else []))
  ++ (if v.bodyType = p.vehicleType then ["Perfect size match"] else [])
  ++ (if cfg.thresholds.excellentRange < v.specifications.range.epa then ["Excellent range"] else [])
  ++ (if cfg.thresholds.advancedTech < v.techScore then ["Advanced technology"] else [])
  ++ (if cfg.thresholds.ecoFriendly < v.ecoScore then ["Eco-friendly"] else [])
  ++ (if ("fast-charging") ∈ p.chargingFeatures ∧
          cfg.thresholds.fastCharging ≤ v.specifications.charging.dc_max_kw
      then ["Fast charging"] else [])

/-- One entry of the recommendation list built by
`getVehicleRecommendations` in `routes/quiz.js`: the vehicle, its match
score, and its match reasons. -/
structure Recommendation where
  vehicle : Vehicle
  score : ℤ
  matchReasons : List String
  deriving Repr, DecidableEq

/-- The comparator of the sort step `(a, b) => b.score - a.score` in
`routes/quiz.js` line 276: `a` stays before `b` exactly when the
comparator is ≤ 0, i.e. when `b.score ≤ a.score`. -/
def scoreDescLE (a b : Recommendation) : Bool := b.score ≤ a.score

/-- The scoring/sorting/slicing pipeline of `getVehicleRecommendations`
(`routes/quiz.js` lines 243–277) in the default environment (external
scoring API and ML recommendations disabled): score every candidate,
stable-sort descending by score, and keep the first
`topRecommendations` entries.  JavaScript's `Array.prototype.sort` is
required to be stable, which `List.mergeSort` models. -/
def getVehicleRecommendations (cfg : QuizConfig) (p : Preferences) (topN : ℕ)
    (vehicles : List Vehicle) : List Recommendation :=
  ((vehicles.map fun v =>
      { vehicle := v
        score := calculateMatchScore cfg v p
        matchReasons := generateMatchReasons cfg v p : Recommendation }).mergeSort
    scoreDescLE).take topN

/-!
## The Vehicle model (Mongoose schema) scorer

`vehicleSchema.methods.calculateMatchScore` and the `effectivePrice`
virtual, from the Vehicle model source.  Unlike the quiz route's scorer,
this method reads `userPreferences.budget.min`, `rangeImportance` and
`techImportance` unconditionally (they must be present), uses the
clamped `effectivePrice` virtual, has no over-budget partial credit
branch, and no similar-type partial credit branch.
-/

/-- Source `vehicleConfig.matchScoring` together with the pieces of
`vehicleConfig` the model method reads (`validation.scores.max` and the
`enableMatchScoring` feature flag). -/
structure VehicleModelConfig where
  budgetWeight : ℚ
  typeWeight : ℚ
  rangeWeight : ℚ
  techWeight : ℚ
  ecoWeight : ℚ
  rangeBaselineEpa : ℚ
  scoresMax : ℚ
  enableMatchScoring : Bool

/-- Source `vehicleConfig` with every environment variable unset: weights
30/25/20/15/10, baseline 300, `validation.scores.max` 100, match scoring
enabled. -/
def defaultVehicleModelConfig : VehicleModelConfig :=
  { budgetWeight := 30
    typeWeight := 25
    rangeWeight := 20
    techWeight := 15
    ecoWeight := 10
    rangeBaselineEpa := 300
    scoresMax := 100
    enableMatchScoring := true }

/-- The preference record as read by the model method: `budget`,
`rangeImportance` and `techImportance` are accessed unconditionally, so
they are required fields here. -/
structure ModelPreferences where
  budget : Budget
  vehicleType : String
  rangeImportance : ℚ
  techImportance : ℚ
  deriving Repr, DecidableEq

/-- The `effectivePrice` virtual of the Vehicle model: MSRP minus the
three incentives, clamped at 0 by `Math.max(0, ·)`. -/
def modelEffectivePrice (v : Vehicle) : ℚ :=
  ratMax 0 (v.price.msrp -
    (v.price.incentives.federal + v.price.incentives.state + v.price.incentives.localInc))

/-- Source `vehicleSchema.methods.calculateMatchScore` from the Vehicle model:
returns 0 when match scoring is disabled; otherwise budget (full / 0.67 /
nothing), exact body-type match only, capped range score, uncapped tech
score, eco score, rounded. -/
def modelCalculateMatchScore (cfg : VehicleModelConfig) (v : Vehicle)
    (p : ModelPreferences) : ℤ :=
  if cfg.enableMatchScoring = false then 0
  else
    let ep := modelEffectivePrice v
    let budget :=
      if p.budget.min ≤ ep ∧ ep ≤ p.budget.max then cfg.budgetWeight
      else if ep < p.budget.min then cfg.budgetWeight * (67/100)
      else 0
    let type := if v.bodyType = p.vehicleType then cfg.typeWeight else 0
    let range :=
      ratMin ((v.specifications.range.epa / cfg.rangeBaselineEpa) * p.rangeImportance *
          (cfg.rangeWeight / 10))
        cfg.rangeWeight
    let tech := (v.techScore / cfg.scoresMax) * p.techImportance * (cfg.techWeight / 10)
    let eco := (v.ecoScore / cfg.scoresMax) * cfg.ecoWeight
    jsRound (budget + type + range + tech + eco)

/-!
## Spec-modelled null-argument guard

The spec's §4.1/§7 require `score` to fail fast with an `InvalidArgument`
error when `vehicle` or `preferences` is absent/null, and name
`InvalidArgument` as the only error kind of the component.  The source
(`calculateMatchScore` in `routes/quiz.js`) contains no such guard — the
spec itself calls the guard "a deliberate contract improvement over ad hoc
defensive coding in the original" — so the guard is modelled from the
spec's words and wrapped around the embedded scorer.
-/

/-- The error taxonomy of the spec's §7: `InvalidArgument` is the only
error kind the component raises. -/
inductive ScoreError where
  | invalidArgument
  deriving Repr, DecidableEq

/-- Modelled from the spec: the fail-fast wrapper of §4.1/§7 — the guard
itself is absent from the source, which the spec acknowledges
("a deliberate contract improvement over ad hoc defensive coding in the
original").  A present vehicle and preferences are scored by the embedded
`calculateMatchScore`; an absent/null argument fails fast with
`ScoreError.invalidArgument`. -/
def scoreChecked (cfg : QuizConfig) (v : Option Vehicle) (p : Option Preferences) :
    Except ScoreError ℤ :=
  match v, p with
  | some v, some p => Except.ok (calculateMatchScore cfg v p)
  | _, _ => Except.error ScoreError.invalidArgument

/-!
## Spec-side reason table

An independently written transcription of the reason rules of §4.1 of the
spec: a fixed-order list of (condition, label) pairs.  Used to state C5:
the code's `generateMatchReasons` emits exactly the labels whose condition
holds, in this order.
-/

/-- The spec's reason rules as a (condition, label) table, in the spec's
fixed order.  A budget condition on an absent budget is false. -/
def reasonTable (cfg : QuizConfig) (v : Vehicle) (p : Preferences) : List (Bool × String) :=
  [ ((match p.budget with
      | none => false
      | some b => decide (effectivePrice v ≤ b.max)), "Within budget"),
    ((match p.budget with
      | none => false
      | some b => decide (effectivePrice v < b.min)), "Great value"),
    (decide (v.bodyType = p.vehicleType), "Perfect size match"),
    (decide (cfg.thresholds.excellentRange < v.specifications.range.epa), "Excellent range"),
    (decide (cfg.thresholds.advancedTech < v.techScore), "Advanced technology"),
    (decide (cfg.thresholds.ecoFriendly < v.ecoScore), "Eco-friendly"),
    (decide ("fast-charging" ∈ p.chargingFeatures ∧
        cfg.thresholds.fastCharging ≤ v.specifications.charging.dc_max_kw), "Fast charging") ]

/-!
## Concrete sample inputs

Constructor shorthands used by witnesses and counterexamples.
-/

/-- No incentives. -/
def noIncentives : Incentives := { federal := 0, state := 0, localInc := 0 }

/-- Build a vehicle record from its scored fields. -/
def mkVehicle (bt : String) (msrp : ℚ) (inc : Incentives) (epa dc tech eco : ℚ) : Vehicle :=
  { bodyType := bt
    price := { msrp := msrp, incentives := inc }
    specifications := { range := { epa := epa }, charging := { dc_max_kw := dc } }
    techScore := tech
    ecoScore := eco }

/-- Build a preference record. -/
def mkPrefs (b : Option Budget) (vt : String) (ri ti : Option ℚ) (cf : List String) :
    Preferences :=
  { budget := b, vehicleType := vt, rangeImportance := ri, techImportance := ti
    chargingFeatures := cf }

/-!
## Claim theorems
-/

/-- C1: with `preferences.budget` present, the budget sub-score follows the
else-if chain of `calculateMatchScore`: the full `budgetWeight` when
`min ≤ effectivePrice ≤ max`; `budgetWeight × 0.67` when
`effectivePrice < min`; `budgetWeight × 0.5` when `effectivePrice` is above
`max` but at most `max × overBudgetTolerance`; and 0 beyond that; with
`preferences.budget` absent the budget sub-score contributes 0. -/
theorem budget_subscore_cases (cfg : QuizConfig) (v : Vehicle) (p : Preferences) :
    (p.budget = none → budgetScore cfg v p = 0) ∧
    (∀ b, p.budget = some b →
      (b.min ≤ effectivePrice v → effectivePrice v ≤ b.max →
        budgetScore cfg v p = cfg.scoring.budgetWeight) ∧
      (effectivePrice v < b.min →
        budgetScore cfg v p = cfg.scoring.budgetWeight * (67/100)) ∧
      (b.min ≤ effectivePrice v → b.max < effectivePrice v →
        effectivePrice v ≤ b.max * cfg.scoring.overBudgetTolerance →
        budgetScore cfg v p = cfg.scoring.budgetWeight * (1/2)) ∧
      (b.min ≤ effectivePrice v → b.max < effectivePrice v →
        b.max * cfg.scoring.overBudgetTolerance < effectivePrice v →
        budgetScore cfg v p = 0)) := by
  constructor
  · intro h; simp [budgetScore, h]
  · intro b hb
    simp only [budgetScore, hb]
    refine ⟨?_, ?_, ?_, ?_⟩
    · intro h1 h2; rw [if_pos ⟨h1, h2⟩]
    · intro h
      rw [if_neg (fun hc => absurd hc.1 (not_le.mpr h)), if_pos h]
    · intro h0 h1 h2
      rw [if_neg (fun hc => absurd hc.2 (not_le.mpr h1)), if_neg (not_lt.mpr h0), if_pos h2]
    · intro h0 h1 h2
      rw [if_neg (fun hc => absurd hc.2 (not_le.mpr h1)), if_neg (not_lt.mpr h0),
        if_neg (not_le.mpr h2)]

/-- Witness for C1: an effective price of 45000 inside the budget window
[30000, 50000] earns the full default budget weight 30. -/
theorem budget_subscore_cases_witness :
    budgetScore defaultQuizConfig (mkVehicle ("sedan") 45000 noIncentives 300 0 0 0)
      (mkPrefs (some { min := 30000, max := 50000 }) "sedan" none none []) = 30 := by
  have h := budget_subscore_cases defaultQuizConfig
    (mkVehicle ("sedan") 45000 noIncentives 300 0 0 0)
    (mkPrefs (some { min := 30000, max := 50000 }) "sedan" none none [])
  exact ((h.2 { min := 30000, max := 50000 } rfl).1 (by decide) (by decide)).trans (by decide)

/-- C2: with `rangeImportance` present (and a nonnegative `rangeWeight`),
the range sub-score equals
`min((epa / rangeBaseline) × rangeImportance × (rangeWeight / 10), rangeWeight)`;
for every input it never exceeds `rangeWeight`; and at epa = 400,
baseline = 300, importance = 10, weight = 20 it is exactly 20. -/
theorem range_subscore_formula (cfg : QuizConfig) (v : Vehicle) (p : Preferences)
    (hw : 0 ≤ cfg.scoring.rangeWeight) :
    (∀ ri, p.rangeImportance = some ri →
      rangeScore cfg v p =
        min ((v.specifications.range.epa / cfg.scoring.rangeBaseline) * ri *
          (cfg.scoring.rangeWeight / 10)) cfg.scoring.rangeWeight) ∧
    rangeScore cfg v p ≤ cfg.scoring.rangeWeight ∧
    rangeScore defaultQuizConfig (mkVehicle ("sedan") 0 noIncentives 400 0 0 0)
      (mkPrefs none ("sedan") (some 10) none []) = 20 := by
  refine ⟨?_, ?_, by decide⟩
  · intro ri hri
    simp only [rangeScore, hri]
    by_cases h : ri = 0
    · subst h
      simp [mul_zero, zero_mul, min_eq_left hw]
    · rw [if_neg h, ratMin_eq]
  · cases hri : p.rangeImportance with
    | none => simpa [rangeScore, hri] using hw
    | some ri =>
      simp only [rangeScore, hri]
      by_cases h : ri = 0
      · rw [if_pos h]; exact hw
      · rw [if_neg h, ratMin_eq]; exact min_le_right _ _

/-- Witness for C2: instantiating at the default configuration and the
spec's end-to-end example (epa 400, baseline 300, importance 10,
weight 20): the formula holds and the sub-score is capped by 20. -/
theorem range_subscore_formula_witness :
    rangeScore defaultQuizConfig (mkVehicle ("sedan") 0 noIncentives 400 0 0 0)
        (mkPrefs none ("sedan") (some 10) none []) =
      min (((400 : ℚ) / 300) * 10 * (20 / 10)) 20 ∧
    rangeScore defaultQuizConfig (mkVehicle ("sedan") 0 noIncentives 400 0 0 0)
        (mkPrefs none ("sedan") (some 10) none []) ≤ 20 := by
  have h := range_subscore_formula defaultQuizConfig
    (mkVehicle ("sedan") 0 noIncentives 400 0 0 0)
    (mkPrefs none ("sedan") (some 10) none []) (by decide)
  exact ⟨h.1 10 rfl, h.2.1⟩

/-- C3: the body-type sub-score is the full `typeWeight` on an exact
`bodyType`/`vehicleType` match, `typeWeight × 0.6` when the body type is
in `similarTypes[vehicleType]`, and 0 otherwise; in particular
bodyType "suv" against vehicleType "sedan" (whose similar types are
exactly ["hatchback"]) scores 0. -/
theorem type_subscore_cases (cfg : QuizConfig) (v : Vehicle) (p : Preferences) :
    (v.bodyType = p.vehicleType → typeScore cfg v p = cfg.scoring.typeWeight) ∧
    (v.bodyType ≠ p.vehicleType → v.bodyType ∈ cfg.similarTypes p.vehicleType →
      typeScore cfg v p = cfg.scoring.typeWeight * (6/10)) ∧
    (v.bodyType ≠ p.vehicleType → v.bodyType ∉ cfg.similarTypes p.vehicleType →
      typeScore cfg v p = 0) ∧
    defaultQuizConfig.similarTypes ("sedan") = ["hatchback"] ∧
    typeScore defaultQuizConfig (mkVehicle ("suv") 0 noIncentives 0 0 0 0)
      (mkPrefs none ("sedan") none none []) = 0 := by
  refine ⟨?_, ?_, ?_, by decide, by decide⟩
  · intro h; simp only [typeScore]; rw [if_pos h]
  · intro h1 h2; simp only [typeScore]; rw [if_neg h1, if_pos h2]
  · intro h1 h2; simp only [typeScore]; rw [if_neg h1, if_neg h2]

/-- Witness for C3: a "hatchback" against preferred "sedan" is a
similar-type partial match worth 25 × 0.6 = 15. -/
theorem type_subscore_cases_witness :
    typeScore defaultQuizConfig (mkVehicle ("hatchback") 0 noIncentives 0 0 0 0)
      (mkPrefs none ("sedan") none none []) = 15 := by
  have h := type_subscore_cases defaultQuizConfig
    (mkVehicle ("hatchback") 0 noIncentives 0 0 0 0)
    (mkPrefs none ("sedan") none none [])
  exact (h.2.1 (by decide) (by decide)).trans (by decide)

/-- C6 counterexample: a vehicle with msrp 1000 and a 2000 federal
incentive.  The quiz scorer's effective price is −1000, not the claimed
clamped 0 (the clamped value is what the Vehicle model's virtual
computes), and the difference is observable: against the budget window
[0, 50000] the quiz score lands in the "great value" branch
(round(30 × 0.67) = 20) instead of the full-weight branch (30) that the
claimed clamped price would select. -/
theorem effectivePrice_not_clamped_cex :
    effectivePrice (mkVehicle ("suv") 1000 { federal := 2000, state := 0, localInc := 0 } 0 0 0 0) =
      -1000 ∧
    modelEffectivePrice
      (mkVehicle ("suv") 1000 { federal := 2000, state := 0, localInc := 0 } 0 0 0 0) = 0 ∧
    effectivePrice (mkVehicle ("suv") 1000 { federal := 2000, state := 0, localInc := 0 } 0 0 0 0) ≠
      modelEffectivePrice
        (mkVehicle ("suv") 1000 { federal := 2000, state := 0, localInc := 0 } 0 0 0 0) ∧
    calculateMatchScore defaultQuizConfig
      (mkVehicle ("suv") 1000 { federal := 2000, state := 0, localInc := 0 } 0 0 0 0)
      (mkPrefs (some { min := 0, max := 50000 }) "sedan" none none []) = 20 := by
  refine ⟨by decide, by decide, by decide, by decide⟩

/-- C6 amended: the quiz route's `calculateMatchScore` uses the raw
difference msrp − (federal + state + local) with no clamping; only the
Vehicle model's `effectivePrice` virtual clamps at 0.  The virtual is
never negative, agrees with the quiz value exactly when that value is
nonnegative, and is 0 when the quiz value is negative. -/
theorem effectivePrice_clamp_amended (v : Vehicle) :
    0 ≤ modelEffectivePrice v ∧
    (0 ≤ effectivePrice v → modelEffectivePrice v = effectivePrice v) ∧
    (effectivePrice v < 0 → modelEffectivePrice v = 0) := by
  have hm : modelEffectivePrice v = max 0 (effectivePrice v) := ratMax_eq _ _
  refine ⟨?_, ?_, ?_⟩
  · rw [hm]; exact le_max_left _ _
  · intro h; rw [hm]; exact max_eq_right h
  · intro h; rw [hm]; exact max_eq_left (le_of_lt h)

/-- Witness for C6 amended: at the counterexample vehicle the clamped
virtual is 0. -/
theorem effectivePrice_clamp_amended_witness :
    modelEffectivePrice
      (mkVehicle ("suv") 1000 { federal := 2000, state := 0, localInc := 0 } 0 0 0 0) = 0 := by
  exact (effectivePrice_clamp_amended
    (mkVehicle ("suv") 1000 { federal := 2000, state := 0, localInc := 0 } 0 0 0 0)).2.2 (by decide)

/-- C7: the quiz scorer is total — it always returns the rounded sum of
its five sub-scores — and each absent optional preference field makes its
sub-score contribute exactly 0. -/
theorem score_total_on_missing_fields (cfg : QuizConfig) (v : Vehicle) (p : Preferences) :
    calculateMatchScore cfg v p =
      jsRound (budgetScore cfg v p + typeScore cfg v p + rangeScore cfg v p +
        techContribution cfg v p + ecoContribution cfg v) ∧
    (p.budget = none → budgetScore cfg v p = 0) ∧
    (p.rangeImportance = none → rangeScore cfg v p = 0) ∧
    (p.techImportance = none → techContribution cfg v p = 0) := by
  refine ⟨rfl, ?_, ?_, ?_⟩ <;> intro h <;>
    simp [budgetScore, rangeScore, techContribution, h]

/-- Witness for C7: with all three optional fields absent every optional
sub-score is 0. -/
theorem score_total_on_missing_fields_witness :
    budgetScore defaultQuizConfig (mkVehicle ("sedan") 40000 noIncentives 300 0 50 50)
        (mkPrefs none ("sedan") none none []) = 0 ∧
    rangeScore defaultQuizConfig (mkVehicle ("sedan") 40000 noIncentives 300 0 50 50)
        (mkPrefs none ("sedan") none none []) = 0 ∧
    techContribution defaultQuizConfig (mkVehicle ("sedan") 40000 noIncentives 300 0 50 50)
        (mkPrefs none ("sedan") none none []) = 0 := by
  have h := score_total_on_missing_fields defaultQuizConfig
    (mkVehicle ("sedan") 40000 noIncentives 300 0 50 50)
    (mkPrefs none ("sedan") none none [])
  exact ⟨h.2.1 rfl, h.2.2.1 rfl, h.2.2.2 rfl⟩

/-- A conditional singleton block is a sublist of its singleton. -/
theorem ite_singleton_sublist {α : Type} (c : Prop) [Decidable c] (x : α) :
    List.Sublist (if c then [x] else []) [x] := by
  split
  · exact List.Sublist.refl _
  · exact List.nil_sublist _

/-- Unfolding step for filtering a (condition, label) table. -/
theorem filter_pair_cons (b : Bool) (s : String) (rest : List (Bool × String)) :
    (((b, s) :: rest).filter Prod.fst).map Prod.snd =
      (if b then [s] else []) ++ ((rest.filter Prod.fst).map Prod.snd) := by
  cases b <;> simp [List.filter]

/-- C5: `generateMatchReasons` emits exactly the labels of the spec's
fixed-order (condition, label) table whose condition holds, each condition
evaluated independently; the output never contains duplicates; and when
`effectivePrice < budget.min ≤ budget.max`, "Within budget" and
"Great value" both appear. -/
theorem generateMatchReasons_table (cfg : QuizConfig) (v : Vehicle) (p : Preferences) :
    generateMatchReasons cfg v p =
      ((reasonTable cfg v p).filter Prod.fst).map Prod.snd ∧
    (generateMatchReasons cfg v p).Nodup ∧
    (∀ b, p.budget = some b → effectivePrice v < b.min → b.min ≤ b.max →
      "Within budget" ∈ generateMatchReasons cfg v p ∧
      "Great value" ∈ generateMatchReasons cfg v p) := by
  have htable : generateMatchReasons cfg v p =
      ((reasonTable cfg v p).filter Prod.fst).map Prod.snd := by
    cases hb : p.budget with
    | none =>
      simp only [generateMatchReasons, reasonTable, hb, filter_pair_cons,
        decide_eq_true_eq, List.filter_nil, List.map_nil, List.append_assoc,
        List.append_nil, List.nil_append, Bool.false_eq_true, if_false]
    | some b =>
      simp only [generateMatchReasons, reasonTable, hb, filter_pair_cons,
        decide_eq_true_eq, List.filter_nil, List.map_nil, List.append_assoc,
        List.append_nil, List.nil_append]
  refine ⟨htable, ?_, ?_⟩
  · rw [htable]
    have h2 : List.Sublist (((reasonTable cfg v p).filter Prod.fst).map Prod.snd)
        ((reasonTable cfg v p).map Prod.snd) :=
      List.Sublist.map _ (List.filter_sublist _)
    have h3 : (reasonTable cfg v p).map Prod.snd =
        ["Within budget", "Great value", "Perfect size match", "Excellent range",
         "Advanced technology", "Eco-friendly", "Fast charging"] := rfl
    rw [h3] at h2
    exact h2.nodup (by decide)
  · intro b hb h1 h2
    have hmax : effectivePrice v ≤ b.max := le_trans (le_of_lt h1) h2
    constructor <;> simp [generateMatchReasons, hb, hmax, h1]

/-- Witness for C5: effective price 25000 against budget [30000, 50000]
produces both "Within budget" and "Great value" (and, the vehicle being an
exact body-type match with modest range/tech/eco, nothing else). -/
theorem generateMatchReasons_table_witness :
    "Within budget" ∈ generateMatchReasons defaultQuizConfig
      (mkVehicle ("sedan") 25000 noIncentives 200 0 50 50)
      (mkPrefs (some { min := 30000, max := 50000 }) "suv" none none []) ∧
    "Great value" ∈ generateMatchReasons defaultQuizConfig
      (mkVehicle ("sedan") 25000 noIncentives 200 0 50 50)
      (mkPrefs (some { min := 30000, max := 50000 }) "suv" none none []) := by
  exact (generateMatchReasons_table defaultQuizConfig
    (mkVehicle ("sedan") 25000 noIncentives 200 0 50 50)
    (mkPrefs (some { min := 30000, max := 50000 }) "suv" none none [])).2.2
    { min := 30000, max := 50000 } rfl (by decide) (by decide)

/-- C9: holding everything else fixed (positive range baseline,
nonnegative range weight, nonnegative rangeImportance when present,
nonnegative eco weight), increasing `specifications.range.epa` never
decreases the range sub-score, and increasing `ecoScore` never decreases
the total score. -/
theorem score_monotone (cfg : QuizConfig) (v : Vehicle) (p : Preferences)
    (hbl : 0 < cfg.scoring.rangeBaseline) (hrw : 0 ≤ cfg.scoring.rangeWeight)
    (hri : ∀ ri, p.rangeImportance = some ri → 0 ≤ ri)
    (hew : 0 ≤ cfg.scoring.ecoWeight) :
    (∀ e1 e2 : ℚ, e1 ≤ e2 →
      rangeScore cfg
        { v with specifications := { v.specifications with range := { epa := e1 } } } p ≤
      rangeScore cfg
        { v with specifications := { v.specifications with range := { epa := e2 } } } p) ∧
    (∀ s1 s2 : ℚ, s1 ≤ s2 →
      calculateMatchScore cfg { v with ecoScore := s1 } p ≤
      calculateMatchScore cfg { v with ecoScore := s2 } p) := by
  constructor
  · intro e1 e2 he
    cases hr : p.rangeImportance with
    | none => simp [rangeScore, hr]
    | some ri =>
      by_cases h0 : ri = 0
      · simp [rangeScore, hr, h0]
      · have hri0 : 0 ≤ ri := hri ri hr
        have h10 : (0:ℚ) ≤ cfg.scoring.rangeWeight / 10 := by positivity
        simp only [rangeScore, hr, if_neg h0, ratMin_eq]
        refine min_le_min ?_ le_rfl
        have h1 : e1 / cfg.scoring.rangeBaseline ≤ e2 / cfg.scoring.rangeBaseline := by
          gcongr
        exact mul_le_mul_of_nonneg_right
          (mul_le_mul_of_nonneg_right h1 hri0) h10
  · intro s1 s2 hs
    have hB : budgetScore cfg { v with ecoScore := s1 } p =
        budgetScore cfg { v with ecoScore := s2 } p := rfl
    have hT : typeScore cfg { v with ecoScore := s1 } p =
        typeScore cfg { v with ecoScore := s2 } p := rfl
    have hR : rangeScore cfg { v with ecoScore := s1 } p =
        rangeScore cfg { v with ecoScore := s2 } p := rfl
    have hTe : techContribution cfg { v with ecoScore := s1 } p =
        techContribution cfg { v with ecoScore := s2 } p := rfl
    have hE : ecoContribution cfg { v with ecoScore := s1 } ≤
        ecoContribution cfg { v with ecoScore := s2 } := by
      show (s1 / 100) * cfg.scoring.ecoWeight ≤ (s2 / 100) * cfg.scoring.ecoWeight
      have h12 : s1 / 100 ≤ s2 / 100 := by linarith
      exact mul_le_mul_of_nonneg_right h12 hew
    show jsRound _ ≤ jsRound _
    apply jsRound_mono
    rw [hB, hT, hR, hTe]
    exact add_le_add_left hE _

/-- Witness for C9 at the default configuration: raising epa from 200 to
250 does not lower the range sub-score, and raising ecoScore from 50 to
100 does not lower the total score. -/
theorem score_monotone_witness :
    rangeScore defaultQuizConfig (mkVehicle ("sedan") 40000 noIncentives 200 0 50 50)
        (mkPrefs (some { min := 30000, max := 50000 }) "sedan" (some 10) (some 10) []) ≤
      rangeScore defaultQuizConfig (mkVehicle ("sedan") 40000 noIncentives 250 0 50 50)
        (mkPrefs (some { min := 30000, max := 50000 }) "sedan" (some 10) (some 10) []) ∧
    calculateMatchScore defaultQuizConfig (mkVehicle ("sedan") 40000 noIncentives 200 0 50 50)
        (mkPrefs (some { min := 30000, max := 50000 }) "sedan" (some 10) (some 10) []) ≤
      calculateMatchScore defaultQuizConfig (mkVehicle ("sedan") 40000 noIncentives 200 0 50 100)
        (mkPrefs (some { min := 30000, max := 50000 }) "sedan" (some 10) (some 10) []) := by
  have h := score_monotone defaultQuizConfig (mkVehicle ("sedan") 40000 noIncentives 200 0 50 50)
    (mkPrefs (some { min := 30000, max := 50000 }) "sedan" (some 10) (some 10) [])
    (by decide) (by decide)
    (by intro ri hr; injection hr with hr; subst hr; decide) (by decide)
  exact ⟨h.1 200 250 (by decide), h.2 50 100 (by decide)⟩

/-- The scored record `{ vehicle, score, matchReasons }` built for one
candidate inside `getVehicleRecommendations`. -/
def scoreRec (cfg : QuizConfig) (p : Preferences) (v : Vehicle) : Recommendation :=
  { vehicle := v
    score := calculateMatchScore cfg v p
    matchReasons := generateMatchReasons cfg v p }

/-- All candidates scored, in input order. -/
def scoredList (cfg : QuizConfig) (p : Preferences) (vehicles : List Vehicle) :
    List Recommendation :=
  vehicles.map (scoreRec cfg p)

/-- The full ranking before the `slice`: the scored candidates stable-sorted
descending by score. -/
def rankAll (cfg : QuizConfig) (p : Preferences) (vehicles : List Vehicle) :
    List Recommendation :=
  (scoredList cfg p vehicles).mergeSort scoreDescLE

/-- Preferences used in the C4 ranking example. -/
def prefsRank : Preferences :=
  mkPrefs (some { min := 0, max := 50000 }) "sedan" (some 10) (some 10) []

/-- Scores 70 against `prefsRank` (priced beyond the tolerated budget). -/
def vScore70 : Vehicle := mkVehicle ("sedan") 100000 noIncentives 300 0 100 100

/-- Scores 85 against `prefsRank`. -/
def vScore85a : Vehicle := mkVehicle ("sedan") 40000 noIncentives 300 0 0 100

/-- Scores 85 against `prefsRank`, distinct from `vScore85a`. -/
def vScore85b : Vehicle := mkVehicle ("sedan") 41000 noIncentives 300 0 0 100

/-- C4: `getVehicleRecommendations` scores every candidate (the full
ranking is a permutation of the scored input), sorts descending by score,
breaks ties by original input order (stability: any input-ordered pair
with the second score at most the first survives in that order), and
returns the first `topN`; concretely, for three candidates scoring
[70, 85, 85] and topN = 2 it returns the two 85-scorers in their input
order and drops the 70-scorer. -/
theorem rank_sorted_stable_top (cfg : QuizConfig) (p : Preferences) (topN : ℕ)
    (vehicles : List Vehicle) :
    (rankAll cfg p vehicles).Perm (scoredList cfg p vehicles) ∧
    (rankAll cfg p vehicles).Pairwise (fun a b => b.score ≤ a.score) ∧
    (∀ a b : Recommendation,
      List.Sublist [a, b] (scoredList cfg p vehicles) → b.score ≤ a.score →
      List.Sublist [a, b] (rankAll cfg p vehicles)) ∧
    getVehicleRecommendations cfg p topN vehicles = (rankAll cfg p vehicles).take topN ∧
    getVehicleRecommendations defaultQuizConfig prefsRank 2 [vScore70, vScore85a, vScore85b] =
      [{ vehicle := vScore85a, score := 85
         matchReasons := ["Within budget", "Perfect size match", "Eco-friendly"] },
       { vehicle := vScore85b, score := 85
         matchReasons := ["Within budget", "Perfect size match", "Eco-friendly"] }] := by
  have htrans : ∀ a b c : Recommendation,
      scoreDescLE a b → scoreDescLE b c → scoreDescLE a c := by
    intro a b c hab hbc
    simp only [scoreDescLE, decide_eq_true_eq] at hab hbc ⊢
    exact le_trans hbc hab
  have htotal : ∀ a b : Recommendation, scoreDescLE a b || scoreDescLE b a := by
    intro a b
    simp only [scoreDescLE, Bool.or_eq_true, decide_eq_true_eq]
    exact le_total _ _
  refine ⟨List.mergeSort_perm _ _, ?_, ?_, rfl, ?_⟩
  · exact (List.sorted_mergeSort htrans htotal _).imp fun h => by
      simpa only [scoreDescLE, decide_eq_true_eq] using h
  · intro a b hsub hle
    exact List.pair_sublist_mergeSort htrans htotal
      (by simpa only [scoreDescLE, decide_eq_true_eq] using hle) hsub
  · have hA : calculateMatchScore defaultQuizConfig vScore70 prefsRank = 70 := by decide
    have hB : calculateMatchScore defaultQuizConfig vScore85a prefsRank = 85 := by decide
    have hC : calculateMatchScore defaultQuizConfig vScore85b prefsRank = 85 := by decide
    have rA : generateMatchReasons defaultQuizConfig vScore70 prefsRank =
        ["Perfect size match", "Advanced technology", "Eco-friendly"] := by decide
    have rB : generateMatchReasons defaultQuizConfig vScore85a prefsRank =
        ["Within budget", "Perfect size match", "Eco-friendly"] := by decide
    have rC : generateMatchReasons defaultQuizConfig vScore85b prefsRank =
        ["Within budget", "Perfect size match", "Eco-friendly"] := by decide
    simp [getVehicleRecommendations, hA, hB, hC, rA, rB, rC,
      List.mergeSort, List.splitInTwo, List.splitAt, List.splitAt.go, List.merge, scoreDescLE]

/-- Witness for C4 exercising the stability clause: the two tied
85-scorers, taken in input order, survive as an ordered pair in the full
ranking of the example pool. -/
theorem rank_sorted_stable_top_witness :
    List.Sublist
      [scoreRec defaultQuizConfig prefsRank vScore85a,
       scoreRec defaultQuizConfig prefsRank vScore85b]
      (rankAll defaultQuizConfig prefsRank [vScore70, vScore85a, vScore85b]) := by
  refine (rank_sorted_stable_top defaultQuizConfig prefsRank 2
    [vScore70, vScore85a, vScore85b]).2.2.1 _ _ ?_ (by decide)
  exact List.Sublist.cons _ (List.Sublist.cons₂ _ (List.Sublist.cons₂ _ (List.nil_sublist [])))

/-- C8 (modelled from the spec): with a missing/null vehicle or
preferences the checked scorer fails fast with `invalidArgument`;
`invalidArgument` is the only error kind it ever raises; and with both
arguments present it returns the score, never an error. -/
theorem scoreChecked_invalidArgument (cfg : QuizConfig)
    (v : Option Vehicle) (p : Option Preferences) :
    ((v = none ∨ p = none) →
      scoreChecked cfg v p = Except.error ScoreError.invalidArgument) ∧
    (∀ e, scoreChecked cfg v p = Except.error e → e = ScoreError.invalidArgument) ∧
    (∀ vv pp, v = some vv → p = some pp →
      scoreChecked cfg v p = Except.ok (calculateMatchScore cfg vv pp)) := by
  refine ⟨?_, ?_, ?_⟩
  · rintro (rfl | rfl)
    · cases p <;> rfl
    · cases v <;> rfl
  · intro e he
    cases e
    rfl
  · rintro vv pp rfl rfl
    rfl

/-- Witness for C8: a null vehicle fails fast with `invalidArgument`. -/
theorem scoreChecked_invalidArgument_witness :
    scoreChecked defaultQuizConfig none (some (mkPrefs none ("sedan") none none [])) =
      Except.error ScoreError.invalidArgument := by
  exact (scoreChecked_invalidArgument defaultQuizConfig none
    (some (mkPrefs none ("sedan") none none []))).1 (Or.inl rfl)

/-- Vehicle exercising the similar-type divergence between the two
scorers: a hatchback against preferred "sedan". -/
def vHatch40k : Vehicle := mkVehicle ("hatchback") 40000 noIncentives 300 0 0 0

/-- Quiz-shaped preferences for the C10 counterexample. -/
def prefsSedanFull : Preferences :=
  mkPrefs (some { min := 30000, max := 50000 }) "sedan" (some 10) (some 10) []

/-- The same preferences in the model method's required shape. -/
def modelPrefsSedanFull : ModelPreferences :=
  { budget := { min := 30000, max := 50000 }, vehicleType := "sedan"
    rangeImportance := 10, techImportance := 10 }

/-- C10 counterexample: on a "hatchback" against preferred "sedan" (a
configured similar type) the quiz scorer grants 25 × 0.6 = 15
similar-type credit that the model method lacks: 65 versus 50 under the
default equal-weight configurations, on an input where both functions are
defined. -/
theorem quiz_model_scores_differ_cex :
    calculateMatchScore defaultQuizConfig vHatch40k prefsSedanFull = 65 ∧
    modelCalculateMatchScore defaultVehicleModelConfig vHatch40k modelPrefsSedanFull = 50 ∧
    calculateMatchScore defaultQuizConfig vHatch40k prefsSedanFull ≠
      modelCalculateMatchScore defaultVehicleModelConfig vHatch40k modelPrefsSedanFull := by
  refine ⟨by decide, by decide, by decide⟩

/-- C10 amended: under the default (equal-weight 30/25/20/15/10, baseline
300) configurations the two scorers agree on every input on which both
are defined and on which none of their three behavioural differences is
exercised: incentives at most msrp (so the model's clamped effective
price equals the quiz one), body type an exact match or not a similar
type (the model has no similar-type credit), and effective price not in
the over-budget window (budget.max, budget.max × 1.1] (the model has no
slightly-over-budget credit). -/
theorem quiz_model_scores_agree (v : Vehicle) (p : Preferences) (b : Budget) (ri ti : ℚ)
    (hb : p.budget = some b) (hri : p.rangeImportance = some ri)
    (hti : p.techImportance = some ti)
    (hinc : v.price.incentives.federal + v.price.incentives.state +
      v.price.incentives.localInc ≤ v.price.msrp)
    (htype : v.bodyType = p.vehicleType ∨
      v.bodyType ∉ defaultQuizConfig.similarTypes p.vehicleType)
    (hbudget : effectivePrice v ≤ b.max ∨ b.max * (11/10) < effectivePrice v) :
    calculateMatchScore defaultQuizConfig v p =
      modelCalculateMatchScore defaultVehicleModelConfig v
        { budget := b, vehicleType := p.vehicleType
          rangeImportance := ri, techImportance := ti } := by
  have hep0 : 0 ≤ effectivePrice v := by
    simp only [effectivePrice]
    linarith
  have hep : modelEffectivePrice v = effectivePrice v := by
    have h1 : modelEffectivePrice v = ratMax 0 (effectivePrice v) := rfl
    rw [h1, ratMax_eq]
    exact max_eq_right hep0
  have hflag : modelCalculateMatchScore defaultVehicleModelConfig v
      { budget := b, vehicleType := p.vehicleType
        rangeImportance := ri, techImportance := ti } =
      jsRound
        ((if b.min ≤ modelEffectivePrice v ∧ modelEffectivePrice v ≤ b.max then
            defaultVehicleModelConfig.budgetWeight
          else if modelEffectivePrice v < b.min then
            defaultVehicleModelConfig.budgetWeight * (67/100)
          else 0) +
         (if v.bodyType = p.vehicleType then defaultVehicleModelConfig.typeWeight else 0) +
         ratMin ((v.specifications.range.epa / defaultVehicleModelConfig.rangeBaselineEpa) * ri *
            (defaultVehicleModelConfig.rangeWeight / 10)) defaultVehicleModelConfig.rangeWeight +
         (v.techScore / defaultVehicleModelConfig.scoresMax) * ti *
            (defaultVehicleModelConfig.techWeight / 10) +
         (v.ecoScore / defaultVehicleModelConfig.scoresMax) * defaultVehicleModelConfig.ecoWeight) :=
    rfl
  have hB : budgetScore defaultQuizConfig v p =
      (if b.min ≤ modelEffectivePrice v ∧ modelEffectivePrice v ≤ b.max then
        defaultVehicleModelConfig.budgetWeight
       else if modelEffectivePrice v < b.min then
        defaultVehicleModelConfig.budgetWeight * (67/100)
       else 0) := by
    rw [hep]
    have hw : defaultVehicleModelConfig.budgetWeight = defaultQuizConfig.scoring.budgetWeight :=
      rfl
    rw [hw]
    simp only [budgetScore, hb]
    by_cases h1 : b.min ≤ effectivePrice v ∧ effectivePrice v ≤ b.max
    · rw [if_pos h1, if_pos h1]
    · rw [if_neg h1, if_neg h1]
      by_cases h2 : effectivePrice v < b.min
      · rw [if_pos h2, if_pos h2]
      · rw [if_neg h2, if_neg h2]
        have h3 : b.max * defaultQuizConfig.scoring.overBudgetTolerance < effectivePrice v := by
          rcases hbudget with hc | hc
          · exact absurd ⟨not_lt.mp h2, hc⟩ h1
          · exact hc
        rw [if_neg (not_le.mpr h3)]
  have hT : typeScore defaultQuizConfig v p =
      (if v.bodyType = p.vehicleType then defaultVehicleModelConfig.typeWeight else 0) := by
    have hw : defaultVehicleModelConfig.typeWeight = defaultQuizConfig.scoring.typeWeight := rfl
    rw [hw]
    simp only [typeScore]
    by_cases he : v.bodyType = p.vehicleType
    · rw [if_pos he, if_pos he]
    · rcases htype with h | h
      · exact absurd h he
      · rw [if_neg he, if_neg h, if_neg he]
  have hR : rangeScore defaultQuizConfig v p =
      ratMin ((v.specifications.range.epa / defaultVehicleModelConfig.rangeBaselineEpa) * ri *
        (defaultVehicleModelConfig.rangeWeight / 10)) defaultVehicleModelConfig.rangeWeight := by
    simp only [rangeScore, hri]
    by_cases h0 : ri = 0
    · subst h0
      rw [if_pos rfl, ratMin_eq]
      have hz : (v.specifications.range.epa / defaultVehicleModelConfig.rangeBaselineEpa) * 0 *
          (defaultVehicleModelConfig.rangeWeight / 10) = 0 := by ring
      rw [hz, min_eq_left (by decide)]
    · rw [if_neg h0]
      rfl
  have hTe : techContribution defaultQuizConfig v p =
      (v.techScore / defaultVehicleModelConfig.scoresMax) * ti *
        (defaultVehicleModelConfig.techWeight / 10) := by
    simp only [techContribution, hti]
    by_cases h0 : ti = 0
    · subst h0
      rw [if_pos rfl]
      ring
    · rw [if_neg h0]
      rfl
  have hE : ecoContribution defaultQuizConfig v =
      (v.ecoScore / defaultVehicleModelConfig.scoresMax) * defaultVehicleModelConfig.ecoWeight :=
    rfl
  rw [hflag]
  show jsRound (budgetScore defaultQuizConfig v p + typeScore defaultQuizConfig v p +
    rangeScore defaultQuizConfig v p + techContribution defaultQuizConfig v p +
    ecoContribution defaultQuizConfig v) = _
  rw [hB, hT, hR, hTe, hE]

/-- Witness for C10 amended: a within-budget exact-match sedan scores 85
under both scorers. -/
theorem quiz_model_scores_agree_witness :
    calculateMatchScore defaultQuizConfig vScore85a prefsRank =
      modelCalculateMatchScore defaultVehicleModelConfig vScore85a
        { budget := { min := 0, max := 50000 }, vehicleType := "sedan"
          rangeImportance := 10, techImportance := 10 } := by
  exact quiz_model_scores_agree vScore85a prefsRank { min := 0, max := 50000 } 10 10
    rfl rfl rfl (by decide) (Or.inl (by decide)) (Or.inl (by decide))
